import Mathlib

/-!
Verification development for the `imagerie` Django data layer
(`DjangoProjects/imagerie/models.py`): a shallow embedding of its
taxonomy helpers, image preprocessing, dataset split, training
lifecycle, persistence and prediction aggregation, with theorems
settling the specified properties.

Conventions of the embedding:
* Python runtime failures (IndexError, raised exceptions) are modelled
  with `Option`/`Except`.
* Decimal constants are embedded as exact rationals.
* Database rows are lists of records, in primary-key order, which is
  the order an unordered Django queryset yields them in this model.
-/

namespace Imagerie

/-- Tokenizer behind `pySplit`: walks the characters, accumulating the
current (reversed) token, and closes a token at each whitespace run. -/
def splitTokens : List Char → List Char → List String
  | [], acc => if acc.isEmpty then [] else [String.mk acc.reverse]
  | c :: cs, acc =>
    if c.isWhitespace then
      (if acc.isEmpty then [] else [String.mk acc.reverse]) ++ splitTokens cs []
    else splitTokens cs (c :: acc)

/-- Python `str.split()` with no argument: the maximal runs of
non-whitespace characters, so no empty tokens and no tokens for leading,
trailing or repeated whitespace. -/
def pySplit (s : String) : List String := splitTokens s.data []

/-- Embedding of `Taxon.clean_name` (models.py lines 45-50).  `rankId` is `self.rank.id`.
`name.split()[0]` raises IndexError when the token list is empty, modelled
as `none`; the rank-8 branch `' '.join(name.split()[:2])` is total. -/
def clean_name (rankId : Nat) (name : String) : Option String :=
  if rankId ≠ 8 then
    (pySplit name).head?
  else
    some (String.intercalate " " ((pySplit name).take 2))

/-- The parsed payload of the NCBI esearch XML response: its `Count`
element and the `Id` elements under `IdList`, in document order. -/
structure EsearchResponse where
  count : Int
  idList : List Int

/-- Embedding of `Taxon.get_id_from_name` (models.py lines 55-60) applied to an
already-fetched response.  When `Count > 0` it reads the first `Id`
(crashing with an attribute error when `IdList` has none, modelled as
`.error`); otherwise the Python function falls through and returns
`None`. -/
def get_id_from_name (resp : EsearchResponse) : Except String (Option Int) :=
  if 0 < resp.count then
    match resp.idList.head? with
    | some i => Except.ok (some i)
    | none => Except.error "AttributeError: no Id element"
  else
    Except.ok none

/-- The persisted fields of a `Taxon` row that `save` reads. -/
structure TaxonRec where
  tax_id : Option Int
  name : String
  rankId : Nat

/-- Embedding of `Taxon.save` (models.py lines 40-43): when `tax_id` is `None` it calls
`set_id_from_name` (lines 52-53), which resolves `clean_name` through the
remote lookup; otherwise it goes straight to the superclass save.  The
returned `Bool` records whether `set_id_from_name` was invoked; `lookup`
stands for `get_id_from_name` applied to the fetched response for the
given name. -/
def taxonSave (lookup : String → Except String (Option Int)) (t : TaxonRec) :
    Bool × Except String TaxonRec :=
  if t.tax_id = none then
    (true,
      match clean_name t.rankId t.name with
      | none => Except.error "IndexError: list index out of range"
      | some cn =>
        match lookup cn with
        | Except.error e => Except.error e
        | Except.ok v => Except.ok { t with tax_id := v })
  else
    (false, Except.ok t)

/-- One `Prediction` row (models.py lines 261-265) for a fixed submitted
image: its primary key, its `specie` foreign key and its `confidence`. -/
structure PredictionRow where
  pk : Nat
  specieId : Nat
  confidence : ℚ

/-- The value of `Sum('confidence')` over the rows of one `specie` group. -/
def sumConfidence (preds : List PredictionRow) (s : Nat) : ℚ :=
  ((preds.filter (fun p => p.specieId = s)).map (fun p => p.confidence)).sum

/-- The distinct `specie` values of the rows, in order of first
appearance (the grouping keys of `.values('specie')` as the database
returns them for rows stored in primary-key order). -/
def specieKeys : List PredictionRow → List Nat → List Nat
  | [], _ => []
  | p :: rest, seen =>
    if p.specieId ∈ seen then specieKeys rest seen
    else p.specieId :: specieKeys rest (p.specieId :: seen)

/-- Embedding of `SubmittedImage.specie` (models.py lines 107-109):
`prediction_set.values('specie').annotate(tot_conf=Sum('confidence')).first()`.
The grouped queryset carries no `order_by`, so `.first()` takes the head
of the groups in the model's default order; each group is the pair
(specie id, summed confidence). -/
def submittedImageSpecie (preds : List PredictionRow) : Option (Nat × ℚ) :=
  ((specieKeys preds []).map (fun s => (s, sumConfidence preds s))).head?

/-! ## Image preprocessing (`Image.preprocess`, models.py lines 94-103) -/

/-- A pixel tensor in height × width × channel layout, as nested lists
(the numpy array after `imageio.imread(..., pilmode='RGB')` and the
resize).  Channel index 0/1/2 is R/G/B. -/
abbrev Tensor3 := List (List (List ℚ))

/-- Per-channel means subtracted by `preprocess` (R, G, B). -/
def channelMean : Nat → ℚ
  | 0 => 12368 / 100
  | 1 => 116779 / 1000
  | _ => 103939 / 1000

/-- The decoded-and-resized image: `imageio.imread` in RGB followed by
`PIL.Image.resize((224, 224))` yields a 224×224×3 float array whose
pixel values come from the external decoder/resampler, abstracted as
`pix y x c`. -/
def decodeResize (pix : Nat → Nat → Nat → ℚ) : Tensor3 :=
  (List.range 224).map fun y =>
    (List.range 224).map fun x =>
      [pix y x 0, pix y x 1, pix y x 2]

/-- The statements `img[:, :, 0] -= 123.68; img[:, :, 1] -= 116.779; img[:, :, 2] -= 103.939`. -/
def subMeans (t : Tensor3) : Tensor3 :=
  t.map fun row => row.map fun px =>
    match px with
    | [r, g, b] => [r - channelMean 0, g - channelMean 1, b - channelMean 2]
    | other => other

/-- The statement `img[:, :, [0, 1, 2]] = img[:, :, [2, 1, 0]]`: new channel 0 takes old
channel 2, new channel 2 takes old channel 0. -/
def swapChannels (t : Tensor3) : Tensor3 :=
  t.map fun row => row.map fun px =>
    match px with
    | [r, g, b] => [b, g, r]
    | other => other

/-- The expression `img.transpose((2, 0, 1))` for an array whose last axis has length 3:
the result is indexed channel, height, width. -/
def transpose201 (t : Tensor3) : Tensor3 :=
  (List.range 3).map fun c =>
    t.map fun row => row.map fun px => px.getD c 0

/-- The expression `np.expand_dims(img, axis=0)`: a leading batch axis of length 1. -/
def expandDims0 (t : Tensor3) : List Tensor3 :=
  [t]

/-- Embedding of `Image.preprocess` (models.py lines 94-103): decode to RGB, resize to
224×224 (both abstracted into `pix`), convert to float, subtract the
per-channel means, swap RGB to BGR, transpose to channel-first, add the
batch dimension — in that order. -/
def preprocess (pix : Nat → Nat → Nat → ℚ) : List Tensor3 :=
  expandDims0 (transpose201 (swapChannels (subMeans (decodeResize pix))))

/-! ## Dataset split (`CNN.split_images`, models.py lines 180-214) -/

/-- A `GroundTruthImage` row as the split consumes it: its primary key
and its trustworthy flag (the species foreign key is the grouping key of
the `image_set` it is listed under).  Note the flag exists only in the
spec and the commented-out filter `image_set.filter(trustworthy=True)`;
the declared model has no such field. -/
structure GTImage where
  pk : Nat
  trustworthy : Bool

/-- The outcome of a split: the created `Class` rows as (pos, specie)
pairs, and the labelled train and test sequences. -/
structure SplitResult where
  classes : List (Nat × Nat)
  train : List (GTImage × Nat)
  test : List (GTImage × Nat)

/-- Modelled from the spec: the body of `CNN.split_images` is commented
out in the source (models.py lines 186-214), so the dataset-building
algorithm of spec §4.2 — which the commented-out code also spells out —
is modelled here.  For each species in order, count its trustworthy
ground-truth images; if the count exceeds 10 create a `Class` row at the
next 1-based position and partition the trustworthy images, the first
`count * (1 - test_fraction)` to train and the rest to test; otherwise
the species is skipped.  `data` lists each species with its ground-truth
images. -/
def splitImagesAux (idClass : Nat) (testFraction : ℚ) :
    List (Nat × List GTImage) → SplitResult
  | [] => ⟨[], [], []⟩
  | (sp, imgs) :: rest =>
    let trust := imgs.filter (fun i => i.trustworthy)
    let n := trust.length
    if 10 < n then
      let limit : ℚ := (n : ℚ) * (1 - testFraction)
      let tr := trust.enum.filterMap
        (fun p => if ((p.1 : ℚ) + 1) ≤ limit then some (p.2, idClass) else none)
      let te := trust.enum.filterMap
        (fun p => if ((p.1 : ℚ) + 1) ≤ limit then none else some (p.2, idClass))
      let restRes := splitImagesAux (idClass + 1) testFraction rest
      ⟨(idClass, sp) :: restRes.classes, tr ++ restRes.train, te ++ restRes.test⟩
    else
      splitImagesAux idClass testFraction rest

/-- Modelled from the spec: entry point of the split; `split_images` starts class positions at 1
and walks the species in their given order. -/
def split_images (data : List (Nat × List GTImage)) (testFraction : ℚ) : SplitResult :=
  splitImagesAux 1 testFraction data

/-- The trustworthy ground-truth image count of a species entry. -/
def trustworthyCount (imgs : List GTImage) : Nat :=
  (imgs.filter (fun i => i.trustworthy)).length

/-! ## Inference (`CNN.classify`, models.py lines 216-223) -/

/-- The value of `numpy.ndarray.argmax()` with no axis: the index, in the flattened
array, of the first occurrence of the maximum. -/
def npArgmax (l : List ℚ) : Nat :=
  (l.enum.foldl
    (fun best p => if p.2 > best.2 then p else best)
    (0, l.headD 0)).1

/-- The in-memory state of a `CNN` instance that `classify` reads. -/
structure CNNState where
  available : Bool
  nnModelLoaded : Bool
  learning_data : Option String

/-- Embedding of `CNN.classify` (models.py lines 216-223).  When `available` is false
it raises; otherwise it (lazily loads the weights,) computes
`predictions = self.nn_model.predict(images)` and evaluates
`predictions.argmax()` — whose value the source discards — and, having
no `return` statement, yields Python's `None` instead of a species
sequence (`Option.none` in the `ok` payload).  `predict` abstracts the
network: per input image, one row of class scores. -/
def classify (cnn : CNNState) (predict : List Nat → List (List ℚ)) (images : List Nat) :
    Except String (Option (List Nat)) :=
  if !cnn.available then
    Except.error "The CNN is not available yet"
  else
    let predictions := predict images
    let _maxIdx := npArgmax predictions.flatten
    Except.ok none

/-! ## Training lifecycle (`CNN.train`, models.py lines 169-178, and
`CNN.save_model`, lines 225-232) -/

/-- The mutable fields of a `CNN` that `train` touches. -/
structure TrainState where
  available : Bool
  accuracy : ℚ
  modelCompiled : Bool
  learning_data : Option String

/-- The fallible collaborators of one `train` run: architecture compile,
dataset split, `fit`, `evaluate` (returning the accuracy), and weight
persistence (`save_model`, returning the path written).  Each may raise,
modelled as `Except`. -/
structure TrainSteps where
  compile : Except String Unit
  split : Except String Unit
  fit : Except String Unit
  evaluate : Except String ℚ
  saveModel : Except String String

/-- Embedding of `CNN.train` (models.py lines 169-178): compile the architecture,
split the images, fit, evaluate into `self.accuracy`, `save_model`, and
only then set `self.available = True`.  An exception at any step aborts
the method there, leaving the state as mutated so far. -/
def train (steps : TrainSteps) (s : TrainState) : TrainState × Option String :=
  match steps.compile with
  | Except.error e => (s, some e)
  | Except.ok _ =>
    let s1 := { s with modelCompiled := true }
    match steps.split with
    | Except.error e => (s1, some e)
    | Except.ok _ =>
      match steps.fit with
      | Except.error e => (s1, some e)
      | Except.ok _ =>
        match steps.evaluate with
        | Except.error e => (s1, some e)
        | Except.ok acc =>
          let s2 := { s1 with accuracy := acc }
          match steps.saveModel with
          | Except.error e => (s2, some e)
          | Except.ok path =>
            ({ s2 with learning_data := some path, available := true }, none)

/-- A date-time as `save_model` reads it off `self.date`; only year,
month, day and hour are used by the path. -/
structure DateTimeRec where
  year : Nat
  month : Nat
  day : Nat
  hour : Nat
  minute : Nat
  second : Nat

/-- Embedding of `os.path.join` for the call shapes `save_model` uses:
a head with no trailing separator (the conventional `MEDIA_ROOT` form,
and `a ++ "/training_datas"` never ends in one) joined to a relative,
non-empty tail component. -/
def pathJoin (a b : String) : String :=
  a ++ "/" ++ b

/-- A filesystem effect of `save_model`, in order of occurrence. -/
inductive FsOp where
  | mkdir (path : String)
  | save (path : String)
  deriving DecidableEq, Repr

/-- Embedding of `CNN.save_model` (models.py lines 225-232): build
`MEDIA_ROOT/training_datas/{architecture.name}_{year}_{month}_{day}_{hour}`,
store it into `self.learning_data`, `os.mkdir` it, then save the network
weights there.  Returns the new `learning_data` and the filesystem
effects in order. -/
def save_model (mediaRoot archName : String) (d : DateTimeRec) : String × List FsOp :=
  let learning_data :=
    pathJoin (pathJoin mediaRoot "training_datas")
      (archName ++ "_" ++ toString d.year ++ "_" ++ toString d.month ++ "_"
        ++ toString d.day ++ "_" ++ toString d.hour)
  (learning_data, [FsOp.mkdir learning_data, FsOp.save learning_data])

/-! ## Helper lemmas -/

/-- One channel plane of the expected preprocessing output: the resized
image's channel `c` with `channelMean c` subtracted, 224 rows of 224
columns. -/
def bgrPlane (pix : Nat → Nat → Nat → ℚ) (c : Nat) : List (List ℚ) :=
  (List.range 224).map fun y =>
    (List.range 224).map fun x => pix y x c - channelMean c

lemma planeOf_pipeline (pix : Nat → Nat → Nat → ℚ) (c : Nat) (hc : c < 3) :
    (swapChannels (subMeans (decodeResize pix))).map
        (fun row => row.map (fun px => px.getD c 0))
      = bgrPlane pix (2 - c) := by
  simp only [swapChannels, subMeans, decodeResize, bgrPlane, List.map_map, Function.comp]
  refine List.map_congr_left fun y _ => ?_
  simp only [List.map_map, Function.comp]
  refine List.map_congr_left fun x _ => ?_
  interval_cases c <;> rfl

lemma mem_splitImagesAux_classes (f : ℚ) (s : Nat) :
    ∀ (data : List (Nat × List GTImage)) (idClass : Nat),
      ((∃ pos, (pos, s) ∈ (splitImagesAux idClass f data).classes) ↔
        ∃ imgs, (s, imgs) ∈ data ∧ 10 < trustworthyCount imgs)
  | [], idClass => by simp [splitImagesAux]
  | (sp, imgs) :: rest, idClass => by
    by_cases h : 10 < (imgs.filter (fun i => i.trustworthy)).length
    · simp only [splitImagesAux, h, if_true, List.mem_cons, trustworthyCount]
      constructor
      · rintro ⟨pos, hp | hp⟩
        · cases hp
          exact ⟨imgs, Or.inl rfl, h⟩
        · obtain ⟨imgs', hm, hc⟩ :=
            (mem_splitImagesAux_classes f s rest (idClass + 1)).1 ⟨pos, hp⟩
          exact ⟨imgs', Or.inr hm, hc⟩
      · rintro ⟨imgs', hm | hm, hc⟩
        · cases hm
          exact ⟨idClass, Or.inl rfl⟩
        · obtain ⟨pos, hp⟩ :=
            (mem_splitImagesAux_classes f s rest (idClass + 1)).2 ⟨imgs', hm, hc⟩
          exact ⟨pos, Or.inr hp⟩
    · simp only [splitImagesAux, h, if_false, List.mem_cons, trustworthyCount]
      rw [mem_splitImagesAux_classes f s rest idClass]
      constructor
      · rintro ⟨imgs', hm, hc⟩
        exact ⟨imgs', Or.inr hm, hc⟩
      · rintro ⟨imgs', hm | hm, hc⟩
        · cases hm
          exact absurd hc (by simpa [trustworthyCount] using h)
        · exact ⟨imgs', hm, hc⟩

/-! ## Claim theorems -/

/-- C1: the inferred-species accessor `SubmittedImage.specie` does NOT
return the species of maximal summed confidence.  On the predictions
(B, 0.5), (A, 0.6), (A, 0.3) — stored in that primary-key order, with
specie ids B = 20 and A = 10 — the accessor returns the group of B with
its sum 0.5, although A's summed confidence 0.9 is strictly larger: the
grouped queryset is never ordered by `tot_conf` before `.first()`. -/
theorem specie_first_not_max_sum :
    submittedImageSpecie [⟨1, 20, 1/2⟩, ⟨2, 10, 3/5⟩, ⟨3, 10, 3/10⟩] = some (20, 1/2) ∧
    sumConfidence [⟨1, 20, 1/2⟩, ⟨2, 10, 3/5⟩, ⟨3, 10, 3/10⟩] 10 = 9/10 ∧
    ((1 : ℚ)/2 < 9/10) := by
  refine ⟨?_, ?_, by norm_num⟩
  · simp [submittedImageSpecie, specieKeys, sumConfidence, List.filter]
  · simp [sumConfidence, List.filter]
    norm_num

/-- C2: in the dataset split built by `split_images`, a species is
admitted as a class — i.e. receives a `Class` row `(pos, specie)` — if
and only if its trustworthy ground-truth image count strictly exceeds
the threshold 10. -/
theorem split_images_admitted_iff (data : List (Nat × List GTImage)) (f : ℚ) (s : Nat) :
    (∃ pos, (pos, s) ∈ (split_images data f).classes) ↔
      ∃ imgs, (s, imgs) ∈ data ∧ 10 < trustworthyCount imgs :=
  mem_splitImagesAux_classes f s data 1

/-- C3: `classify` on an available classifier does not return the
argmax-selected species.  On an available CNN whose network scores one
image as (1, 9) — class index 1 clearly maximal — the source evaluates
`predictions.argmax()` (which is 1), discards the value, and falls off
the end of the function returning Python's `None` instead of any
`Specie` values. -/
theorem classify_available_returns_no_species :
    classify ⟨true, true, some "weights"⟩ (fun _ => [[1, 9]]) [7] = Except.ok none ∧
    npArgmax ((fun (_ : List Nat) => [[(1 : ℚ), 9]]) [7]).flatten = 1 := by
  constructor
  · rfl
  · simp [npArgmax, List.foldl]

/-- C4: for every classifier with `available = false` and every input
image collection, `classify(images)` raises (the generic
`Exception('The CNN is not available yet')`) and never returns a
result. -/
theorem classify_unavailable_raises (cnn : CNNState)
    (predict : List Nat → List (List ℚ)) (images : List Nat)
    (h : cnn.available = false) :
    classify cnn predict images = Except.error "The CNN is not available yet" ∧
    ∀ r, classify cnn predict images ≠ Except.ok r := by
  have he : classify cnn predict images = Except.error "The CNN is not available yet" := by
    simp [classify, h]
  exact ⟨he, fun r hr => by simp [he] at hr⟩

theorem classify_unavailable_raises_witness :
    classify ⟨false, false, none⟩ (fun _ => []) [] =
      Except.error "The CNN is not available yet" :=
  (classify_unavailable_raises ⟨false, false, none⟩ (fun _ => []) [] rfl).1

/-- C5: for a taxon of species-level rank (rank id 8), `clean_name` is
the first two whitespace-separated tokens of `name` joined by a space;
for any other rank it is exactly the first token. -/
theorem clean_name_rank_tokens (r : Nat) (name : String) :
    (r ≠ 8 → ∀ t ts, pySplit name = t :: ts → clean_name r name = some t) ∧
    (r = 8 → ∀ t₁ t₂ ts, pySplit name = t₁ :: t₂ :: ts →
      clean_name r name = some (t₁ ++ " " ++ t₂)) := by
  constructor
  · intro hr t ts hs
    simp [clean_name, hr, hs]
  · intro hr t₁ t₂ ts hs
    subst hr
    simp only [clean_name, ne_eq, not_true_eq_false, if_false, hs, List.take,
      Option.some.injEq]
    show String.intercalate.go t₁ " " [t₂] = t₁ ++ " " ++ t₂
    rfl

theorem clean_name_rank_tokens_witness :
    clean_name 3 "Quercus robur" = some "Quercus" ∧
    clean_name 8 "Quercus robur L." = some ("Quercus" ++ " " ++ "robur") :=
  ⟨(clean_name_rank_tokens 3 "Quercus robur").1 (by decide) "Quercus" ["robur"] (by decide),
   (clean_name_rank_tokens 8 "Quercus robur L.").2 rfl "Quercus" "robur" ["L."] (by decide)⟩

/-- C6: if `train` fails at any step — compile, split, fit, evaluate or
the weight persistence of `save_model` — the `available` flag keeps its
prior value; and starting from an unavailable classifier, `available`
can only become true when no step failed, in particular only when
`save_model` succeeded (and its path landed in `learning_data`). -/
theorem train_preserves_available (steps : TrainSteps) (s : TrainState) :
    ((train steps s).2.isSome → (train steps s).1.available = s.available) ∧
    (s.available = false → (train steps s).1.available = true →
      (train steps s).2 = none ∧
        ∃ p, steps.saveModel = Except.ok p ∧
          (train steps s).1.learning_data = some p) := by
  cases hc : steps.compile with
  | error e => simp [train, hc]
  | ok u =>
    cases hspl : steps.split with
    | error e => simp [train, hc, hspl]
    | ok v =>
      cases hf : steps.fit with
      | error e => simp [train, hc, hspl, hf]
      | ok w =>
        cases he : steps.evaluate with
        | error e => simp [train, hc, hspl, hf, he]
        | ok acc =>
          cases hsm : steps.saveModel with
          | error e => simp [train, hc, hspl, hf, he, hsm]
          | ok p => simp [train, hc, hspl, hf, he, hsm]

theorem train_preserves_available_witness :
    (train ⟨Except.error "boom", Except.ok (), Except.ok (), Except.ok 0, Except.ok "w"⟩
        ⟨false, 0, false, none⟩).1.available = false ∧
    ((train ⟨Except.ok (), Except.ok (), Except.ok (), Except.ok 0, Except.ok "w"⟩
        ⟨false, 0, false, none⟩).2 = none ∧
      ∃ p, (⟨Except.ok (), Except.ok (), Except.ok (), Except.ok 0, Except.ok "w"⟩ :
          TrainSteps).saveModel = Except.ok p ∧
        (train ⟨Except.ok (), Except.ok (), Except.ok (), Except.ok 0, Except.ok "w"⟩
            ⟨false, 0, false, none⟩).1.learning_data = some p) :=
  ⟨(train_preserves_available
      ⟨Except.error "boom", Except.ok (), Except.ok (), Except.ok 0, Except.ok "w"⟩
      ⟨false, 0, false, none⟩).1 rfl,
   (train_preserves_available
      ⟨Except.ok (), Except.ok (), Except.ok (), Except.ok 0, Except.ok "w"⟩
      ⟨false, 0, false, none⟩).2 rfl rfl⟩

/-- C7: `save_model` stores the weights at a path that is a
deterministic function of the architecture name and the classifier
timestamp's year, month, day and hour, of the shape
`MEDIA_ROOT/training_datas/{arch}_{year}_{month}_{day}_{hour}`, and its
`os.mkdir` of that directory precedes the weight save. -/
theorem save_model_path_spec (root arch : String) (d : DateTimeRec) :
    (save_model root arch d).2 =
      [FsOp.mkdir (save_model root arch d).1, FsOp.save (save_model root arch d).1] ∧
    (save_model root arch d).1 =
      root ++ "/training_datas/" ++
        (arch ++ "_" ++ toString d.year ++ "_" ++ toString d.month ++ "_" ++
          toString d.day ++ "_" ++ toString d.hour) ∧
    (∀ d' : DateTimeRec, d'.year = d.year → d'.month = d.month → d'.day = d.day →
      d'.hour = d.hour → (save_model root arch d').1 = (save_model root arch d).1) := by
  refine ⟨rfl, ?_, ?_⟩
  · show (root ++ "/" ++ "training_datas") ++ "/" ++ _ = _
    have h : ("/" : String) ++ "training_datas" ++ "/" = "/training_datas/" := rfl
    rw [String.append_assoc root, String.append_assoc root, h]
  · intro d' h1 h2 h3 h4
    simp [save_model, pathJoin, h1, h2, h3, h4]

theorem save_model_path_spec_witness :
    (save_model "/media" "googlenet" ⟨2020, 5, 7, 13, 59, 58⟩).1 =
      (save_model "/media" "googlenet" ⟨2020, 5, 7, 13, 4, 3⟩).1 ∧
    (save_model "/media" "googlenet" ⟨2020, 5, 7, 13, 4, 3⟩).2 =
      [FsOp.mkdir (save_model "/media" "googlenet" ⟨2020, 5, 7, 13, 4, 3⟩).1,
       FsOp.save (save_model "/media" "googlenet" ⟨2020, 5, 7, 13, 4, 3⟩).1] :=
  ⟨(save_model_path_spec "/media" "googlenet" ⟨2020, 5, 7, 13, 4, 3⟩).2.2
      ⟨2020, 5, 7, 13, 59, 58⟩ rfl rfl rfl rfl,
   (save_model_path_spec "/media" "googlenet" ⟨2020, 5, 7, 13, 4, 3⟩).1⟩

/-- C8: an external taxonomy lookup whose response carries `Count = 0`
resolves to no external id (`none`) without raising; and `Taxon.save`
invokes `set_id_from_name` exactly when the row's `tax_id` is absent. -/
theorem taxon_id_resolution_spec :
    (∀ resp : EsearchResponse, resp.count = 0 → get_id_from_name resp = Except.ok none) ∧
    (∀ (lookup : String → Except String (Option Int)) (t : TaxonRec),
      (taxonSave lookup t).1 = true ↔ t.tax_id = none) := by
  constructor
  · intro resp h
    simp [get_id_from_name, h]
  · intro lookup t
    by_cases h : t.tax_id = none <;> simp [taxonSave, h]

theorem taxon_id_resolution_spec_witness :
    get_id_from_name ⟨0, []⟩ = Except.ok none ∧
    ((taxonSave (fun _ => Except.ok none) ⟨none, "Rosa canina", 8⟩).1 = true ↔
      (⟨none, "Rosa canina", 8⟩ : TaxonRec).tax_id = none) :=
  ⟨taxon_id_resolution_spec.1 ⟨0, []⟩ rfl,
   taxon_id_resolution_spec.2 (fun _ => Except.ok none) ⟨none, "Rosa canina", 8⟩⟩

/-- C9: `preprocess` returns a tensor of shape (1, 3, 224, 224): one
batch entry of three 224×224 channel planes in BGR order, where output
channel `c` holds input RGB channel `2 - c` with that channel's mean
(R: 123.68, G: 116.779, B: 103.939) subtracted — the composite of the
documented decode/resize, mean-subtraction, channel-swap, transpose and
batch-expansion steps in that order. -/
theorem preprocess_spec (pix : Nat → Nat → Nat → ℚ) :
    preprocess pix = [[bgrPlane pix 2, bgrPlane pix 1, bgrPlane pix 0]] ∧
    (preprocess pix).length = 1 ∧
    (∀ b ∈ preprocess pix, b.length = 3 ∧
      ∀ ch ∈ b, ch.length = 224 ∧ ∀ row ∈ ch, row.length = 224) := by
  have hmain : preprocess pix = [[bgrPlane pix 2, bgrPlane pix 1, bgrPlane pix 0]] := by
    have h3 : List.range 3 = [0, 1, 2] := by decide
    simp only [preprocess, expandDims0, transpose201, h3, List.map_cons, List.map_nil]
    rw [planeOf_pipeline pix 0 (by decide), planeOf_pipeline pix 1 (by decide),
      planeOf_pipeline pix 2 (by decide)]
  refine ⟨hmain, by rw [hmain]; rfl, ?_⟩
  intro b hb
  rw [hmain] at hb
  simp only [List.mem_singleton] at hb
  subst hb
  refine ⟨rfl, ?_⟩
  intro ch hch
  have hlen : ch.length = 224 ∧ ∀ row ∈ ch, row.length = 224 := by
    simp only [List.mem_cons, List.not_mem_nil, or_false] at hch
    rcases hch with h | h | h <;> subst h <;>
      exact ⟨by simp [bgrPlane], fun row hrow => by
        simp only [bgrPlane, List.mem_map] at hrow
        obtain ⟨y, _, hy⟩ := hrow
        simp [← hy]⟩
  exact hlen

/-- C10 counterexample: the claim that every taxon with an empty or
whitespace-only name crashes in `clean_name` is false — a species-rank
taxon (rank id 8) with name `" "` goes through the total
`' '.join(name.split()[:2])` branch and yields `""` without failing. -/
theorem clean_name_blank_rank8_counterexample :
    clean_name 8 " " = some "" := by decide

/-- C10 amended: for a taxon whose name has no non-whitespace token,
accessing `clean_name` fails (IndexError on the empty token list) when
the rank id is not 8, while for rank id 8 it returns the empty string
without failing. -/
theorem clean_name_partial_amended (r : Nat) (name : String)
    (h : pySplit name = []) :
    (r ≠ 8 → clean_name r name = none) ∧
    (r = 8 → clean_name r name = some "") := by
  constructor
  · intro hr
    simp [clean_name, hr, h]
  · intro hr
    subst hr
    simp [clean_name, h, String.intercalate]

theorem clean_name_partial_amended_witness :
    (1 ≠ 8 → clean_name 1 " " = none) ∧ (1 = 8 → clean_name 1 " " = some "") :=
  clean_name_partial_amended 1 " " (by decide)

end Imagerie
